import Mathlib

/-!
# Verification of the country-counter Cloudflare worker (src/lib.rs)

A shallow embedding of the data-handling core of the worker:

* the `Value` cell model and its two renderings (`stringify`, JSON encoding),
  including the un-padded standard base64 encoding of blobs;
* the three row-set renderers `result_to_html_table`, `create_map_canvas`
  and `into_json`, over a model of `libsql::Rows` whose row stream can
  signal a read fault mid-iteration;
* the persistent state mutated by `serve` (the `counter` and `coordinates`
  tables) with the three SQL statements modelled as atomic table operations,
  plus an interleaving semantics for concurrent `serve` invocations;
* the HTTP route handlers of `main` as pure functions of their inputs and
  of the outcomes of their database calls.

Modelling conventions:

* 64-bit floating point values are modelled opaquely by the structure `F64`
  holding their canonical decimal representation (Rust's `f64` `Display`
  output, which is injective on the values the program produces);
* the `f32` latitude/longitude pair handed to `serve` is likewise modelled
  opaquely by the structure `F32` holding the canonical decimal
  representation: the program only ever compares coordinates for equality
  (via the `(lat, long)` primary key), and the representation is injective,
  so the model preserves the behaviour;
* Rust panics (`unwrap` on an `Err`/`None`) are modelled by the `panicked`
  constructor of `RResult`, distinct from an error value returned to the
  caller (`err`) and from a normal result (`ok`);
* tables are modelled as lists of rows, and each SQL statement is one
  atomic transformation of the list, exactly as the database applies it:
  `INSERT OR IGNORE` appends one row only when no row with the same primary
  key is present, and `UPDATE ... SET value = value + 1 WHERE ...` bumps
  every matching row in place.
-/

/-- Canonical-decimal model of a Rust `f64`: the value is identified with
its `Display` rendering (e.g. "52.1672"). -/
structure F64 where
  repr : String
deriving DecidableEq, Repr

/-- Canonical-decimal model of a Rust `f32`, used for the latitude and
longitude `serve` receives and stores. -/
structure F32 where
  repr : String
deriving DecidableEq, Repr

/-- `libsql::Value`: one cell of a query result (src/lib.rs uses the five
variants Null / Integer / Real / Text / Blob). Blob bytes are naturals,
meaningful when `< 256`. -/
inductive Value where
  | Null : Value
  | Integer : Int → Value
  | Real : F64 → Value
  | Text : String → Value
  | Blob : List Nat → Value
deriving DecidableEq, Repr

/-- A blob payload is a genuine byte sequence: every entry is below 256. -/
def allBytes (bs : List Nat) : Prop := ∀ b ∈ bs, b < 256

instance : DecidablePred allBytes := fun bs =>
  inferInstanceAs (Decidable (∀ b ∈ bs, b < 256))

/-! ## Decimal rendering of integers (Rust `i64` `Display`) -/

/-- Little-endian decimal digits of a natural number (empty for 0). -/
def natDigits : Nat → List Nat
  | 0 => []
  | n + 1 => (n + 1) % 10 :: natDigits ((n + 1) / 10)
decreasing_by exact Nat.div_lt_self (Nat.succ_pos n) (by omega)

/-- The character for one decimal digit. -/
def digitChar (d : Nat) : Char := Char.ofNat (48 + d)

/-- Decimal character list of a natural number, most significant first. -/
def natChars (n : Nat) : List Char :=
  if n = 0 then ['0'] else ((natDigits n).reverse.map digitChar)

/-- Decimal rendering of an integer, as Rust's `i64` `Display` produces it:
an optional minus sign followed by the decimal digits. -/
def intToString (i : Int) : String :=
  if i < 0 then ⟨'-' :: natChars i.natAbs⟩ else ⟨natChars i.toNat⟩

/-- Numeric value of one decimal digit character, if it is one. -/
def charDigit (c : Char) : Option Nat :=
  if 48 ≤ c.toNat ∧ c.toNat ≤ 57 then some (c.toNat - 48) else none

/-- Accumulating decimal parser over a character list. -/
def parseNatGo (acc : Nat) : List Char → Option Nat
  | [] => some acc
  | c :: cs =>
    match charDigit c with
    | some d => parseNatGo (acc * 10 + d) cs
    | none => none

/-- Parse a non-empty all-digit character list as a natural number. -/
def parseNatChars (cs : List Char) : Option Nat :=
  if cs.isEmpty then none else parseNatGo 0 cs

/-- Parse the decimal rendering of an integer back: an optional leading
minus sign, then decimal digits. -/
def parseInt (s : String) : Option Int :=
  match s.data with
  | [] => none
  | c :: cs =>
    if c = '-' then (parseNatChars cs).map (fun n => -(Int.ofNat n))
    else (parseNatChars (c :: cs)).map (fun n => Int.ofNat n)

/-! ## Un-padded standard base64 (`BASE64_STANDARD_NO_PAD`) -/

/-- The standard base64 alphabet (RFC 4648, no padding used). -/
def b64Alphabet : List Char :=
  ['A', 'B', 'C', 'D', 'E', 'F', 'G', 'H', 'I', 'J', 'K', 'L', 'M',
   'N', 'O', 'P', 'Q', 'R', 'S', 'T', 'U', 'V', 'W', 'X', 'Y', 'Z',
   'a', 'b', 'c', 'd', 'e', 'f', 'g', 'h', 'i', 'j', 'k', 'l', 'm',
   'n', 'o', 'p', 'q', 'r', 's', 't', 'u', 'v', 'w', 'x', 'y', 'z',
   '0', '1', '2', '3', '4', '5', '6', '7', '8', '9', '+', '/']

/-- Alphabet character of a sextet. -/
def sextetChar (s : Nat) : Char := b64Alphabet.getD s 'A'

/-- Sextet of an alphabet character, by position in the table. -/
def sextetVal (c : Char) : Option Nat := b64Alphabet.findIdx? (· == c)

/-- Un-padded standard base64 encoding of a byte list, chunked three bytes
to four characters, with the 1- and 2-byte tails emitting two and three
characters respectively and no `=` padding. -/
def b64EncodeBytes : List Nat → List Char
  | a :: b :: c :: rest =>
    sextetChar (a / 4) :: sextetChar (a % 4 * 16 + b / 16) ::
    sextetChar (b % 16 * 4 + c / 64) :: sextetChar (c % 64) ::
    b64EncodeBytes rest
  | [a, b] => [sextetChar (a / 4), sextetChar (a % 4 * 16 + b / 16), sextetChar (b % 16 * 4)]
  | [a] => [sextetChar (a / 4), sextetChar (a % 4 * 16)]
  | [] => []

/-- `BASE64_STANDARD_NO_PAD.encode` as used by `stringify` and `into_json`. -/
def base64NoPad (bs : List Nat) : String := ⟨b64EncodeBytes bs⟩

/-- Inverse of `b64EncodeBytes`: decode four characters to three bytes, a
three-character tail to two bytes, a two-character tail to one byte. -/
def b64DecodeChars : List Char → Option (List Nat)
  | [] => some []
  | [_] => none
  | [c1, c2] => do
    let s1 ← sextetVal c1
    let s2 ← sextetVal c2
    pure [s1 * 4 + s2 / 16]
  | [c1, c2, c3] => do
    let s1 ← sextetVal c1
    let s2 ← sextetVal c2
    let s3 ← sextetVal c3
    pure [s1 * 4 + s2 / 16, s2 % 16 * 16 + s3 / 4]
  | c1 :: c2 :: c3 :: c4 :: rest => do
    let s1 ← sextetVal c1
    let s2 ← sextetVal c2
    let s3 ← sextetVal c3
    let s4 ← sextetVal c4
    let tail ← b64DecodeChars rest
    pure ((s1 * 4 + s2 / 16) :: (s2 % 16 * 16 + s3 / 4) :: (s3 % 4 * 64 + s4) :: tail)

/-- Base64 decoding of a string. -/
def base64Decode (s : String) : Option (List Nat) := b64DecodeChars s.data

/-! ## The cell renderings: `stringify` and the JSON cell encoding -/

/-- `stringify` (src/lib.rs lines 41-49): the display string of a cell. -/
def stringify (cell : Value) : String :=
  match cell with
  | .Null => ""
  | .Integer v => intToString v
  | .Real v => v.repr
  | .Text v => v
  | .Blob v => base64NoPad v

/-- A `serde_json::Value` document: JSON with the number payloads the
program actually builds (`i64` or `f64`). -/
inductive Json where
  | null : Json
  | intNum : Int → Json
  | realNum : F64 → Json
  | str : String → Json
  | arr : List Json → Json
  | obj : List (String × Json) → Json
deriving Repr

/-- The per-cell JSON encoding performed inside `into_json`
(src/lib.rs lines 261-270). -/
def cellToJson (cell : Value) : Json :=
  match cell with
  | .Null => Json.null
  | .Integer v => Json.intNum v
  | .Real v => Json.realNum v
  | .Text v => Json.str v
  | .Blob v => Json.obj [("base64", Json.str (base64NoPad v))]

/-- Inverse of `cellToJson`: recover the cell from its JSON encoding. -/
def jsonDecodeCell (j : Json) : Option Value :=
  match j with
  | Json.null => some Value.Null
  | Json.intNum i => some (Value.Integer i)
  | Json.realNum f => some (Value.Real f)
  | Json.str s => some (Value.Text s)
  | Json.obj [("base64", Json.str b)] => (base64Decode b).map Value.Blob
  | _ => none

/-! ## Round-trip lemmas for the cell encodings -/

theorem natDigits_lt_ten : ∀ n, ∀ d ∈ natDigits n, d < 10 := by
  intro n
  induction n using natDigits.induct with
  | case1 => intro d hd; simp [natDigits] at hd
  | case2 m ih =>
    intro d hd
    rw [natDigits] at hd
    rcases List.mem_cons.mp hd with h | h
    · omega
    · exact ih d h

theorem mem_natChars (n : Nat) : ∀ c ∈ natChars n, ∃ d, d < 10 ∧ c = digitChar d := by
  intro c hc
  unfold natChars at hc
  by_cases h0 : n = 0
  · simp [h0] at hc
    exact ⟨0, by omega, by rw [hc]; rfl⟩
  · rw [if_neg h0] at hc
    rcases List.mem_map.mp hc with ⟨d, hd, rfl⟩
    exact ⟨d, natDigits_lt_ten n d (List.mem_reverse.mp hd), rfl⟩

theorem natChars_ne_nil (n : Nat) : natChars n ≠ [] := by
  unfold natChars
  by_cases h0 : n = 0
  · simp [h0]
  · rw [if_neg h0]
    obtain ⟨m, rfl⟩ := Nat.exists_eq_succ_of_ne_zero h0
    rw [natDigits]
    simp

theorem charDigit_digitChar : ∀ d < 10, charDigit (digitChar d) = some d := by decide

theorem digitChar_ne_minus : ∀ d < 10, digitChar d ≠ '-' := by decide

theorem parseNatGo_append (xs ys : List Char) : ∀ acc,
    parseNatGo acc (xs ++ ys) = (parseNatGo acc xs).bind fun a => parseNatGo a ys := by
  induction xs with
  | nil => intro acc; rfl
  | cons c cs ih =>
    intro acc
    simp only [List.cons_append, parseNatGo]
    cases charDigit c with
    | none => rfl
    | some d => exact ih (acc * 10 + d)

theorem parseNatGo_natDigits : ∀ n, 0 < n → ∀ acc,
    parseNatGo acc ((natDigits n).reverse.map digitChar) =
      some (acc * 10 ^ (natDigits n).length + n) := by
  intro n
  induction n using Nat.strong_induction_on with
  | _ n ih =>
    intro hn acc
    obtain ⟨m, rfl⟩ := Nat.exists_eq_succ_of_ne_zero hn.ne'
    rw [natDigits, List.reverse_cons, List.map_append, parseNatGo_append]
    by_cases hq : (m + 1) / 10 = 0
    · have hm : m + 1 < 10 := by omega
      rw [hq]
      simp only [natDigits, List.reverse_nil, List.map_nil, List.map_cons, parseNatGo,
        Option.some_bind, List.length_cons, List.length_nil]
      rw [charDigit_digitChar ((m + 1) % 10) (by omega)]
      simp only [parseNatGo, Option.some_inj, pow_one]
      omega
    · have hlt : (m + 1) / 10 < m + 1 := Nat.div_lt_self (by omega) (by omega)
      rw [ih ((m + 1) / 10) hlt (by omega) acc]
      simp only [Option.some_bind, List.map_cons, List.map_nil, parseNatGo, List.length_cons]
      rw [charDigit_digitChar ((m + 1) % 10) (by omega)]
      simp only [parseNatGo]
      congr 1
      rw [pow_succ]
      set L := 10 ^ (natDigits ((m + 1) / 10)).length with hL
      have hsplit : 10 * ((m + 1) / 10) + (m + 1) % 10 = m + 1 := Nat.div_add_mod (m + 1) 10
      have hexp : (acc * L + (m + 1) / 10) * 10 + (m + 1) % 10 =
          acc * (L * 10) + (10 * ((m + 1) / 10) + (m + 1) % 10) := by ring
      rw [hexp, hsplit]

theorem parseNatChars_natChars (n : Nat) : parseNatChars (natChars n) = some n := by
  by_cases h0 : n = 0
  · subst h0; decide
  · have hne : natChars n ≠ [] := natChars_ne_nil n
    unfold parseNatChars
    rw [if_neg (by simpa [List.isEmpty_iff] using hne)]
    unfold natChars
    rw [if_neg h0, parseNatGo_natDigits n (by omega) 0]
    simp

theorem parseInt_intToString (i : Int) : parseInt (intToString i) = some i := by
  by_cases hneg : i < 0
  · rw [intToString, if_pos hneg]
    show (parseNatChars (natChars i.natAbs)).map (fun n => -(Int.ofNat n)) = some i
    rw [parseNatChars_natChars]
    simp only [Option.map_some', Int.ofNat_eq_natCast]
    congr 1
    omega
  · rw [intToString, if_neg hneg]
    obtain ⟨c, cs, hcs⟩ := List.exists_cons_of_ne_nil (natChars_ne_nil i.toNat)
    obtain ⟨d, hd, hc⟩ := mem_natChars i.toNat c (by rw [hcs]; simp)
    show parseInt ⟨natChars i.toNat⟩ = some i
    unfold parseInt
    simp only [hcs, hc]
    rw [if_neg (digitChar_ne_minus d hd), ← hc, ← hcs, parseNatChars_natChars]
    simp only [Option.map_some', Int.ofNat_eq_natCast]
    congr 1
    omega

theorem sextetVal_sextetChar : ∀ s < 64, sextetVal (sextetChar s) = some s := by decide

theorem sextetChar_mem_alphabet : ∀ s < 64, b64Alphabet.contains (sextetChar s) = true := by
  decide

theorem b64DecodeChars_encode : ∀ bs : List Nat, allBytes bs →
    b64DecodeChars (b64EncodeBytes bs) = some bs := by
  intro bs
  induction bs using b64EncodeBytes.induct with
  | case1 a b c rest ih =>
    intro h
    have ha : a < 256 := h a (by simp)
    have hb : b < 256 := h b (by simp)
    have hc : c < 256 := h c (by simp)
    rw [b64EncodeBytes, b64DecodeChars,
      sextetVal_sextetChar (a / 4) (by omega),
      sextetVal_sextetChar (a % 4 * 16 + b / 16) (by omega),
      sextetVal_sextetChar (b % 16 * 4 + c / 64) (by omega),
      sextetVal_sextetChar (c % 64) (by omega),
      ih (fun x hx => h x (by simp [hx]))]
    simp
    omega
  | case2 a b =>
    intro h
    have ha : a < 256 := h a (by simp)
    have hb : b < 256 := h b (by simp)
    rw [b64EncodeBytes, b64DecodeChars,
      sextetVal_sextetChar (a / 4) (by omega),
      sextetVal_sextetChar (a % 4 * 16 + b / 16) (by omega),
      sextetVal_sextetChar (b % 16 * 4) (by omega)]
    simp
    omega
  | case3 a =>
    intro h
    have ha : a < 256 := h a (by simp)
    rw [b64EncodeBytes, b64DecodeChars,
      sextetVal_sextetChar (a / 4) (by omega),
      sextetVal_sextetChar (a % 4 * 16) (by omega)]
    simp
    omega
  | case4 =>
    intro _
    rfl

/-- Base64 decoding inverts the un-padded standard encoding on byte lists. -/
theorem base64Decode_base64NoPad (bs : List Nat) (h : allBytes bs) :
    base64Decode (base64NoPad bs) = some bs :=
  b64DecodeChars_encode bs h

/-- Every character the encoder emits is in the standard alphabet (which has
no `=`): the encoding is un-padded standard base64. -/
def isStdB64NoPad (s : String) : Bool := s.data.all (fun c => b64Alphabet.contains c)

theorem b64EncodeBytes_mem_alphabet : ∀ bs : List Nat, allBytes bs →
    ∀ ch ∈ b64EncodeBytes bs, b64Alphabet.contains ch = true := by
  intro bs
  induction bs using b64EncodeBytes.induct with
  | case1 a b c rest ih =>
    intro h ch hch
    have ha : a < 256 := h a (by simp)
    have hb : b < 256 := h b (by simp)
    have hc : c < 256 := h c (by simp)
    rw [b64EncodeBytes] at hch
    simp only [List.mem_cons] at hch
    rcases hch with rfl | rfl | rfl | rfl | hch
    · exact sextetChar_mem_alphabet _ (by omega)
    · exact sextetChar_mem_alphabet _ (by omega)
    · exact sextetChar_mem_alphabet _ (by omega)
    · exact sextetChar_mem_alphabet _ (by omega)
    · exact ih (fun x hx => h x (by simp [hx])) ch hch
  | case2 a b =>
    intro h ch hch
    have ha : a < 256 := h a (by simp)
    have hb : b < 256 := h b (by simp)
    rw [b64EncodeBytes] at hch
    simp only [List.mem_cons, List.not_mem_nil, or_false] at hch
    rcases hch with rfl | rfl | rfl
    · exact sextetChar_mem_alphabet _ (by omega)
    · exact sextetChar_mem_alphabet _ (by omega)
    · exact sextetChar_mem_alphabet _ (by omega)
  | case3 a =>
    intro h ch hch
    have ha : a < 256 := h a (by simp)
    rw [b64EncodeBytes] at hch
    simp only [List.mem_cons, List.not_mem_nil, or_false] at hch
    rcases hch with rfl | rfl
    · exact sextetChar_mem_alphabet _ (by omega)
    · exact sextetChar_mem_alphabet _ (by omega)
  | case4 =>
    intro _ ch hch
    simp [b64EncodeBytes] at hch

theorem isStdB64NoPad_base64NoPad (bs : List Nat) (h : allBytes bs) :
    isStdB64NoPad (base64NoPad bs) = true := by
  show (b64EncodeBytes bs).all (fun c => b64Alphabet.contains c) = true
  rw [List.all_eq_true]
  intro ch hch
  exact b64EncodeBytes_mem_alphabet bs h ch hch

/-- Decoding the JSON cell encoding recovers the cell. -/
theorem jsonDecodeCell_cellToJson (cell : Value)
    (h : ∀ bs, cell = Value.Blob bs → allBytes bs) :
    jsonDecodeCell (cellToJson cell) = some cell := by
  cases cell with
  | Null => rfl
  | Integer v => rfl
  | Real v => rfl
  | Text v => rfl
  | Blob v =>
    simp only [cellToJson, jsonDecodeCell, base64Decode_base64NoPad v (h v rfl),
      Option.map_some']

/-! ## Row sets and the three renderers -/

/-- One row: the ordered cells, positionally aligned with the column list. -/
abbrev Row := List Value

/-- Model of `libsql::Rows`: the ordered (possibly absent) column names plus
the single-pass row stream; each stream entry is either a row or a read
fault carrying the underlying error message. -/
structure Rows where
  cols : List (Option String)
  rows : List (Except String Row)

/-- The observable outcome of calling one of the Rust renderer functions: a
normal return, an error value returned to the caller, or an abort through a
Rust panic (an `unwrap` of an `Err` or `None`). A panic outcome carries the
message of the fault that was unwrapped. -/
inductive RResult (α : Type) where
  | ok : α → RResult α
  | err : String → RResult α
  | panicked : String → RResult α
deriving DecidableEq, Repr

/-- Whether the outcome is an error value returned to the caller. -/
def RResult.isErrValue {α : Type} : RResult α → Bool
  | .err _ => true
  | _ => false

/-- Panic message used when an in-range/typed cell access fails
(`row.get(i).unwrap()` or `row.get_value(i).unwrap()` on a bad row). -/
def cellUnwrapMsg : String := "cell access failed"

/-- Opening tag of the HTML table. -/
def tableOpen : String := "<table style=\"border: 1px solid\">"

/-- One header cell: the column name or the empty string when it is absent
(`result.column_name(col).unwrap_or("")`), unescaped. -/
def headerCell (name : Option String) : String :=
  "<th style=\"border: 1px solid\">" ++ name.getD "" ++ "</th>"

/-- The header-cell run emitted by the `for col in 0..col_num` loop. -/
def tableHeader (cols : List (Option String)) : String :=
  String.join (cols.map headerCell)

/-- The `<td>` cells of one table row: the first `colNum` cells rendered by
`stringify`; the source unwraps `row.get_value(col)`, which panics when the
row has fewer than `colNum` cells. -/
def htmlCells (colNum : Nat) (row : Row) : RResult String :=
  if colNum ≤ row.length then
    .ok (String.join ((row.take colNum).map (fun cell => "<td>" ++ stringify cell ++ "</td>")))
  else .panicked cellUnwrapMsg

/-- The `<tr>` runs of `result_to_html_table`: the `while let` loop over the
row stream. `result.next().unwrap()` panics on a read fault, carrying it. -/
def htmlRowsBody (colNum : Nat) : List (Except String Row) → RResult String
  | [] => .ok ""
  | .error e :: _ => .panicked e
  | .ok row :: rest =>
    match htmlCells colNum row with
    | .ok cells =>
      match htmlRowsBody colNum rest with
      | .ok body => .ok ("<tr style=\"border: 1px solid\">" ++ cells ++ "</tr>" ++ body)
      | .err e => .err e
      | .panicked e => .panicked e
    | .err e => .err e
    | .panicked e => .panicked e

/-- `result_to_html_table` (src/lib.rs lines 22-39): open tag, one header
cell per column, one row per stream row, closing tag. Its Rust type returns
a plain `String`; faults abort it through a panic, never an error value. -/
def result_to_html_table (result : Rows) : RResult String :=
  match htmlRowsBody result.cols.length result.rows with
  | .ok body => .ok (tableOpen ++ tableHeader result.cols ++ body ++ "</table>")
  | .err e => .err e
  | .panicked e => .panicked e

/-- Typed string accessor `row.get::<String>(i)`. -/
def rowGetText (row : Row) (i : Nat) : Option String :=
  match row.get? i with
  | some (Value.Text s) => some s
  | _ => none

/-- Typed floating-point accessor `row.get::<f64>(i)`. -/
def rowGetReal (row : Row) (i : Nat) : Option F64 :=
  match row.get? i with
  | some (Value.Real f) => some f
  | _ => none

/-- The fixed map-visualization preamble of `create_map_canvas`
(src/lib.rs lines 53-81), emitted once, before any row is read. -/
def mapPreamble : String :=
  "\n  <script src=\"https://cdnjs.cloudflare.com/ajax/libs/p5.js/0.5.16/p5.min.js\" type=\"text/javascript\"></script>\n  <script src=\"https://unpkg.com/mappa-mundi/dist/mappa.js\" type=\"text/javascript\"></script>\n    <script>\n    let myMap;\n    let canvas;\n    const mappa = new Mappa(\x27Leaflet\x27);\n    const options = \x7b\n      lat: 0,\n      lng: 0,\n      zoom: 2,\n      style: \"http://\x7bs\x7d.tile.osm.org/\x7bz\x7d/\x7bx\x7d/\x7by\x7d.png\"\n    \x7d\n\n    function setup()\x7b\n      canvas = createCanvas(640,480);\n      myMap = mappa.tileMap(options); \n      myMap.overlay(canvas) \n    \n      fill(200, 100, 100);\n      myMap.onChange(drawPoint);\n    \x7d\n\n    function draw()\x7b\n    \x7d\n\n    function drawPoint()\x7b\n      clear();\n      let point;"

/-- The closing emitted after the row loop. -/
def mapClosing : String := "\x7d</script>"

/-- One marker-placement statement, with the raw coordinates and label
substituted into the fixed template. -/
def markerStmt (lat lon : F64) (airport : String) : String :=
  "point = myMap.latLngToPixel(" ++ lat.repr ++ ", " ++ lon.repr ++
  ");\nellipse(point.x, point.y, 10, 10);\ntext(" ++ airport ++ ", point.x, point.y);\n"

/-- The marker statements of the `while let` loop of `create_map_canvas`:
one per row, expecting columns (label, latitude, longitude); every access is
unwrapped, so a read fault or a mismatched row aborts through a panic. -/
def mapMarkers : List (Except String Row) → RResult String
  | [] => .ok ""
  | .error e :: _ => .panicked e
  | .ok row :: rest =>
    match rowGetText row 0 with
    | none => .panicked cellUnwrapMsg
    | some airport =>
      match rowGetReal row 1 with
      | none => .panicked cellUnwrapMsg
      | some lat =>
        match rowGetReal row 2 with
        | none => .panicked cellUnwrapMsg
        | some lon =>
          match mapMarkers rest with
          | .ok body => .ok (markerStmt lat lon airport ++ body)
          | .err e => .err e
          | .panicked e => .panicked e

/-- `create_map_canvas` (src/lib.rs lines 52-95): the fixed preamble, one
marker statement per row, then the closing. Its Rust type returns a plain
`String`; faults abort it through a panic, never an error value. -/
def create_map_canvas (result : Rows) : RResult String :=
  match mapMarkers result.rows with
  | .ok markers => .ok (mapPreamble ++ markers ++ mapClosing)
  | .err e => .err e
  | .panicked e => .panicked e

/-- The JSON cells of one row inside `into_json`: the first `colNum` cells
encoded by the five-way match; `row.get_value(i).unwrap()` panics when the
row has fewer than `colNum` cells. -/
def rowToJsonCells (colNum : Nat) (row : Row) : RResult (List Json) :=
  if colNum ≤ row.length then .ok ((row.take colNum).map cellToJson)
  else .panicked cellUnwrapMsg

/-- The row loop of `into_json`: `res.next()?` propagates a read fault to
the caller as an error value (the one renderer that does). -/
def jsonRows (colNum : Nat) : List (Except String Row) → RResult (List (List Json))
  | [] => .ok []
  | .error e :: _ => .err e
  | .ok row :: rest =>
    match rowToJsonCells colNum row with
    | .ok cells =>
      match jsonRows colNum rest with
      | .ok done => .ok (cells :: done)
      | .err e => .err e
      | .panicked e => .panicked e
    | .err e => .err e
    | .panicked e => .panicked e

/-- The `columns` list of `into_json`: the column name as a JSON string, or
JSON null when the name is absent (`Option<String>` serialized). -/
def columnsJson (cols : List (Option String)) : List Json :=
  cols.map (fun name =>
    match name with
    | none => Json.null
    | some s => Json.str s)

/-- `into_json` (src/lib.rs lines 253-279): the document with the ordered
`columns` list and the `rows` list of rows of JSON-encoded cells. -/
def into_json (res : Rows) : RResult Json :=
  match jsonRows res.cols.length res.rows with
  | .ok rows =>
    .ok (Json.obj [("columns", Json.arr (columnsJson res.cols)),
                   ("rows", Json.arr (rows.map Json.arr))])
  | .err e => .err e
  | .panicked e => .panicked e

/-! ## The persistent store and the Visit Recorder (`serve`) -/

/-- One row of the `counter` table: (country, city, value); primary key
(country, city). -/
abbrev CounterRow := String × String × Int

/-- One row of the `coordinates` table: (lat, long, airport); primary key
(lat, long). -/
abbrev CoordRow := F32 × F32 × String

/-- The two tables created and mutated by `serve`. -/
structure Db where
  counter : List CounterRow
  coords : List CoordRow
deriving DecidableEq, Repr

/-- Whether a counter row has the given primary key. -/
def counterKeyMatch (country city : String) (r : CounterRow) : Bool :=
  r.1 == country && r.2.1 == city

/-- The statement "INSERT OR IGNORE INTO counter VALUES (?, ?, 0)"
(src/lib.rs lines 120-124): append a zero-valued row only when no row with
the same (country, city) key is present. -/
def seedCounter (country city : String) (t : List CounterRow) : List CounterRow :=
  if t.any (counterKeyMatch country city) then t else t ++ [(country, city, 0)]

/-- The statement "UPDATE counter SET value = value + 1 WHERE country = ?
AND city = ?" (src/lib.rs lines 125-129): one atomic in-place bump of every
matching row. -/
def incrCounter (country city : String) (t : List CounterRow) : List CounterRow :=
  t.map (fun r => if counterKeyMatch country city r then (r.1, r.2.1, r.2.2 + 1) else r)

/-- Whether a coordinate row has the given primary key. -/
def coordKeyMatch (lat lon : F32) (r : CoordRow) : Bool :=
  r.1 == lat && r.2.1 == lon

/-- The statement "INSERT OR IGNORE INTO coordinates VALUES (?, ?, ?)"
(src/lib.rs lines 130-135): append only when the (lat, long) key is new. -/
def seedCoord (lat lon : F32) (airport : String) (t : List CoordRow) : List CoordRow :=
  if t.any (coordKeyMatch lat lon) then t else t ++ [(lat, lon, airport)]

/-- Number of counter rows with the given primary key. -/
def countKey (country city : String) (t : List CounterRow) : Nat :=
  t.countP (counterKeyMatch country city)

/-- Sum of the values of the counter rows with the given key: with at most
one row per key, the row's value (or 0 when the key is absent). -/
def keyValue (country city : String) (t : List CounterRow) : Int :=
  ((t.filter (counterKeyMatch country city)).map (fun r => r.2.2)).sum

/-- Number of coordinate rows with the given primary key. -/
def countCoord (lat lon : F32) (t : List CoordRow) : Nat :=
  t.countP (coordKeyMatch lat lon)

/-- One atomic mutating SQL statement issued by `serve`. Each statement is
applied by the database in one step; this is the granularity at which
concurrent requests interleave. -/
inductive Op where
  | seed : String → String → Op
  | incr : String → String → Op
  | coord : F32 → F32 → String → Op
deriving DecidableEq, Repr

/-- Apply one statement to the store. -/
def applyOp (op : Op) (db : Db) : Db :=
  match op with
  | .seed country city => { db with counter := seedCounter country city db.counter }
  | .incr country city => { db with counter := incrCounter country city db.counter }
  | .coord lat lon airport => { db with coords := seedCoord lat lon airport db.coords }

/-- Apply a sequence of statements in order. -/
def applyOps (ops : List Op) (db : Db) : Db :=
  match ops with
  | [] => db
  | op :: rest => applyOps rest (applyOp op db)

/-- The mutating statements of one `serve` call (src/lib.rs lines 120-135),
in program order: seed the counter row, increment it, seed the coordinate
row. (The schema batch and the two SELECT queries do not mutate the
tables.) -/
def visitOps (country city : String) (lat lon : F32) (airport : String) : List Op :=
  [Op.seed country city, Op.incr country city, Op.coord lat lon airport]

/-- The effect of one successful `serve airport country city (lat, lon)`
call on the store. -/
def visit (airport country city : String) (lat lon : F32) (db : Db) : Db :=
  applyOps (visitOps country city lat lon airport) db

/-- The spec scenario: ("waw","PL","Warsaw",(52.1672,20.9679)) three times,
then ("hel","FI","Helsinki",(60.3183,24.9497)) twice, from empty tables. -/
def scenarioFinal : Db :=
  visit "hel" "FI" "Helsinki" ⟨"60.3183"⟩ ⟨"24.9497"⟩
    (visit "hel" "FI" "Helsinki" ⟨"60.3183"⟩ ⟨"24.9497"⟩
      (visit "waw" "PL" "Warsaw" ⟨"52.1672"⟩ ⟨"20.9679"⟩
        (visit "waw" "PL" "Warsaw" ⟨"52.1672"⟩ ⟨"20.9679"⟩
          (visit "waw" "PL" "Warsaw" ⟨"52.1672"⟩ ⟨"20.9679"⟩ ⟨[], []⟩))))

/-- An interleaving of several statement streams: at each step the head
statement of one stream executes atomically; every stream's internal order
is preserved, steps of different streams interleave arbitrarily. -/
inductive Interleaving : List (List Op) → List Op → Prop where
  | nil : ∀ streams, (∀ s ∈ streams, s = []) → Interleaving streams []
  | step : ∀ (pre post : List (List Op)) (x : Op) (rest out : List Op),
      Interleaving (pre ++ rest :: post) out →
      Interleaving (pre ++ (x :: rest) :: post) (x :: out)

/-! ## Facts about the three statements -/

theorem counterKeyMatch_bump (country city : String) (r : CounterRow) :
    counterKeyMatch country city (r.1, r.2.1, r.2.2 + 1) =
      counterKeyMatch country city r := rfl

theorem countKey_incrCounter (country city : String) (t : List CounterRow) :
    countKey country city (incrCounter country city t) = countKey country city t := by
  unfold countKey incrCounter
  induction t with
  | nil => rfl
  | cons r rest ih =>
    by_cases h : counterKeyMatch country city r
    · simp [h, counterKeyMatch_bump, ih]
    · simp [h, ih]

theorem keyValue_incrCounter (country city : String) (t : List CounterRow) :
    keyValue country city (incrCounter country city t) =
      keyValue country city t + (countKey country city t : Int) := by
  unfold keyValue incrCounter countKey
  induction t with
  | nil => simp
  | cons r rest ih =>
    by_cases h : counterKeyMatch country city r
    · simp [h, counterKeyMatch_bump, ih]
      ring
    · simp [h, ih]

theorem any_counterKeyMatch_iff (country city : String) (t : List CounterRow) :
    t.any (counterKeyMatch country city) = true ↔ countKey country city t ≠ 0 := by
  rw [List.any_eq_true]
  unfold countKey
  constructor
  · rintro ⟨r, hr, hm⟩ hz
    exact absurd hm (by simpa using (List.countP_eq_zero.mp hz) r hr)
  · intro hz
    rcases List.countP_pos_iff.mp (Nat.pos_of_ne_zero hz) with ⟨r, hr, hm⟩
    exact ⟨r, hr, hm⟩

theorem countKey_seedCounter (country city : String) (t : List CounterRow) :
    countKey country city (seedCounter country city t) =
      if countKey country city t = 0 then 1 else countKey country city t := by
  unfold seedCounter
  by_cases hany : t.any (counterKeyMatch country city) = true
  · rw [if_pos hany, if_neg ((any_counterKeyMatch_iff country city t).mp hany)]
  · have hz : countKey country city t = 0 := by
      by_contra hnz
      exact hany ((any_counterKeyMatch_iff country city t).mpr hnz)
    rw [if_neg hany, if_pos hz]
    unfold countKey at *
    rw [List.countP_append, hz]
    simp [counterKeyMatch]

theorem keyValue_seedCounter (country city : String) (t : List CounterRow) :
    keyValue country city (seedCounter country city t) = keyValue country city t := by
  unfold seedCounter
  by_cases hany : t.any (counterKeyMatch country city) = true
  · rw [if_pos hany]
  · rw [if_neg hany]
    unfold keyValue
    rw [List.filter_append, List.map_append, List.sum_append]
    simp [counterKeyMatch]

theorem countKey_seedCounter_pos (country city : String) (t : List CounterRow) :
    countKey country city (seedCounter country city t) ≠ 0 := by
  rw [countKey_seedCounter]
  by_cases hz : countKey country city t = 0
  · simp [hz]
  · simp [hz, hz]

theorem seedCounter_seedCounter (country city : String) (t : List CounterRow) :
    seedCounter country city (seedCounter country city t) =
      seedCounter country city t := by
  have h := countKey_seedCounter_pos country city t
  unfold seedCounter
  rw [if_pos]
  exact (any_counterKeyMatch_iff country city _).mpr (by
    have := countKey_seedCounter_pos country city t
    unfold seedCounter at this
    exact this)

theorem any_coordKeyMatch_iff (lat lon : F32) (t : List CoordRow) :
    t.any (coordKeyMatch lat lon) = true ↔ countCoord lat lon t ≠ 0 := by
  rw [List.any_eq_true]
  unfold countCoord
  constructor
  · rintro ⟨r, hr, hm⟩ hz
    exact absurd hm (by simpa using (List.countP_eq_zero.mp hz) r hr)
  · intro hz
    rcases List.countP_pos_iff.mp (Nat.pos_of_ne_zero hz) with ⟨r, hr, hm⟩
    exact ⟨r, hr, hm⟩

theorem countCoord_seedCoord (lat lon : F32) (airport : String) (t : List CoordRow) :
    countCoord lat lon (seedCoord lat lon airport t) =
      if countCoord lat lon t = 0 then 1 else countCoord lat lon t := by
  unfold seedCoord
  by_cases hany : t.any (coordKeyMatch lat lon) = true
  · rw [if_pos hany, if_neg ((any_coordKeyMatch_iff lat lon t).mp hany)]
  · have hz : countCoord lat lon t = 0 := by
      by_contra hnz
      exact hany ((any_coordKeyMatch_iff lat lon t).mpr hnz)
    rw [if_neg hany, if_pos hz]
    unfold countCoord at *
    rw [List.countP_append, hz]
    simp [coordKeyMatch]

theorem seedCoord_second_noop (lat lon : F32) (a a' : String) (t : List CoordRow) :
    seedCoord lat lon a' (seedCoord lat lon a t) = seedCoord lat lon a t := by
  have hnz : countCoord lat lon (seedCoord lat lon a t) ≠ 0 := by
    rw [countCoord_seedCoord]
    by_cases hz : countCoord lat lon t = 0
    · simp [hz]
    · simp [hz, hz]
  conv_lhs => rw [seedCoord]
  rw [if_pos ((any_coordKeyMatch_iff lat lon _).mpr hnz)]

theorem countCoord_seedCoord_other (p q lat lon : F32) (airport : String)
    (t : List CoordRow) (h : countCoord p q t ≤ 1) :
    countCoord p q (seedCoord lat lon airport t) ≤ 1 := by
  unfold seedCoord
  by_cases hany : t.any (coordKeyMatch lat lon) = true
  · rw [if_pos hany]; exact h
  · rw [if_neg hany]
    unfold countCoord at *
    rw [List.countP_append]
    by_cases hm : coordKeyMatch p q (lat, lon, airport) = true
    · have hz : t.countP (coordKeyMatch p q) = 0 := by
        have hpq : p = lat ∧ q = lon := by
          unfold coordKeyMatch at hm
          simp only [Bool.and_eq_true, beq_iff_eq] at hm
          exact ⟨hm.1.symm, hm.2.symm⟩
        rcases hpq with ⟨rfl, rfl⟩
        by_contra hnz
        exact hany ((any_coordKeyMatch_iff p q t).mpr hnz)
      rw [hz]
      simp [hm]
    · simp [hm, h]

/-! ## The interleaving invariant for concurrent visits -/

theorem forms_step {α : Type} {P : α → Prop} (pre post : List α) (a b : α)
    (hforms : ∀ s ∈ pre ++ a :: post, P s) (hb : P b) :
    ∀ s ∈ pre ++ b :: post, P s := by
  intro s hs
  rcases List.mem_append.mp hs with hs | hs
  · exact hforms s (List.mem_append_left _ hs)
  · rcases List.mem_cons.mp hs with rfl | hs
    · exact hb
    · exact hforms s (List.mem_append_right _ (List.mem_cons_of_mem _ hs))

theorem count_step {α : Type} [BEq α] [LawfulBEq α] (pre post : List α) (a S : α) :
    (pre ++ a :: post).count S = (pre ++ post).count S + (if a == S then 1 else 0) := by
  by_cases h : a == S
  · simp only [List.count_append, List.count_cons, h, if_true]
    omega
  · simp only [List.count_append, List.count_cons, h, if_false]
    omega

/-- The central invariant behind the no-lost-update property. Take any
collection of concurrent visit recordings for the same (country, city) key,
each one part-way through its three statements (not yet started, increment
and coordinate insert left, or only the coordinate insert left), and any
interleaving of the remaining statements. Provided the table holds at most
one row for the key, and holds a row whenever some visit has already
executed its seed, the final table holds exactly one row for the key
(unless it was absent and nothing seeds it), and its value grows by exactly
the number of pending increments. -/
theorem interleaving_counter_invariant (country city : String) (lat lon : F32)
    (airport : String) :
    ∀ (streams : List (List Op)) (out : List Op), Interleaving streams out →
    ∀ db : Db,
      (∀ s ∈ streams, s = [] ∨ s = [Op.coord lat lon airport] ∨ s = [Op.incr country city, Op.coord lat lon airport] ∨ s = [Op.seed country city, Op.incr country city, Op.coord lat lon airport]) →
      countKey country city db.counter ≤ 1 →
      (countKey country city db.counter = 0 → streams.count [Op.incr country city, Op.coord lat lon airport] = 0) →
      countKey country city (applyOps out db).counter =
        (if countKey country city db.counter = 0 ∧ streams.count [Op.seed country city, Op.incr country city, Op.coord lat lon airport] = 0
         then 0 else 1) ∧
      keyValue country city (applyOps out db).counter =
        keyValue country city db.counter +
          (streams.count [Op.incr country city, Op.coord lat lon airport] : Int) + (streams.count [Op.seed country city, Op.incr country city, Op.coord lat lon airport] : Int) := by
  intro streams out h
  induction h with
  | nil streams hall =>
    intro db hforms hle hnoincr
    have h2 : streams.count [Op.incr country city, Op.coord lat lon airport] = 0 :=
      List.count_eq_zero.mpr (fun hmem => by simpa using hall _ hmem)
    have h3 : streams.count [Op.seed country city, Op.incr country city, Op.coord lat lon airport] = 0 :=
      List.count_eq_zero.mpr (fun hmem => by simpa using hall _ hmem)
    rw [h2, h3]
    simp only [applyOps]
    refine ⟨?_, by simp⟩
    by_cases hz : countKey country city db.counter = 0
    · simp [hz]
    · have h1 : countKey country city db.counter = 1 := by omega
      simp [hz, h1]
  | step pre post x rest out hi ih =>
    intro db hforms hle hnoincr
    have hmem : (x :: rest) ∈ pre ++ (x :: rest) :: post := by simp
    rcases hforms _ hmem with habs | h1 | h2 | h3
    · exact (List.cons_ne_nil x rest habs).elim
    · -- head statement: the coordinate insert of an almost-finished visit
      injection h1 with hx hr
      subst hx
      subst hr
      have hforms' := forms_step pre post _ ([] : List Op) hforms (Or.inl rfl)
      have hcounter : (applyOp (Op.coord lat lon airport) db).counter = db.counter := rfl
      have hc2 : (pre ++ ([] : List Op) :: post).count [Op.incr country city, Op.coord lat lon airport] =
          (pre ++ [Op.coord lat lon airport] :: post).count [Op.incr country city, Op.coord lat lon airport] := by
        rw [count_step, count_step]
        simp
      have hc3 : (pre ++ ([] : List Op) :: post).count [Op.seed country city, Op.incr country city, Op.coord lat lon airport] =
          (pre ++ [Op.coord lat lon airport] :: post).count [Op.seed country city, Op.incr country city, Op.coord lat lon airport] := by
        rw [count_step, count_step]
        simp
      have hres := ih (applyOp (Op.coord lat lon airport) db) hforms'
        (by rw [hcounter]; exact hle)
        (by rw [hcounter, hc2]; exact hnoincr)
      rw [hcounter, hc2, hc3] at hres
      simpa only [applyOps] using hres
    · -- head statement: the increment of a visit whose seed already ran
      injection h2 with hx hr
      subst hx
      subst hr
      have hcnt2 : (pre ++ ([Op.incr country city, Op.coord lat lon airport]) :: post).count [Op.incr country city, Op.coord lat lon airport] =
          (pre ++ post).count [Op.incr country city, Op.coord lat lon airport] + 1 := by
        rw [count_step]
        simp
      have hkey : countKey country city db.counter = 1 := by
        rcases Nat.eq_or_lt_of_le hle with h1 | h0
        · omega
        · exfalso
          have hz : countKey country city db.counter = 0 := by omega
          have := hnoincr hz
          omega
      have hcounter : (applyOp (Op.incr country city) db).counter =
          incrCounter country city db.counter := rfl
      have hkey' : countKey country city (applyOp (Op.incr country city) db).counter = 1 := by
        rw [hcounter, countKey_incrCounter, hkey]
      have hval' : keyValue country city (applyOp (Op.incr country city) db).counter =
          keyValue country city db.counter + 1 := by
        rw [hcounter, keyValue_incrCounter, hkey]
        simp
      have hforms' := forms_step pre post _ ([Op.coord lat lon airport]) hforms (Or.inr (Or.inl rfl))
      have hres := ih (applyOp (Op.incr country city) db) hforms'
        (by omega)
        (by intro hz; omega)
      have hc2' : (pre ++ ([Op.coord lat lon airport]) :: post).count [Op.incr country city, Op.coord lat lon airport] =
          (pre ++ post).count [Op.incr country city, Op.coord lat lon airport] := by
        rw [count_step]
        simp
      have hc3' : (pre ++ ([Op.coord lat lon airport]) :: post).count [Op.seed country city, Op.incr country city, Op.coord lat lon airport] =
          (pre ++ ([Op.incr country city, Op.coord lat lon airport]) :: post).count [Op.seed country city, Op.incr country city, Op.coord lat lon airport] := by
        rw [count_step, count_step]
        simp
      rw [hkey', hval', hc2', hc3'] at hres
      simp only [applyOps]
      constructor
      · have hcond : ¬(countKey country city db.counter = 0 ∧
            (pre ++ ([Op.incr country city, Op.coord lat lon airport]) :: post).count [Op.seed country city, Op.incr country city, Op.coord lat lon airport] = 0) := by
          rintro ⟨h0, _⟩
          omega
        rw [hres.1, if_neg (by rintro ⟨h0, _⟩; omega), if_neg hcond]
      · rw [hres.2, hcnt2]
        push_cast
        ring
    · -- head statement: the seed of a visit that has not started yet
      injection h3 with hx hr
      subst hx
      subst hr
      have hcnt3 : (pre ++ ([Op.seed country city, Op.incr country city, Op.coord lat lon airport]) :: post).count [Op.seed country city, Op.incr country city, Op.coord lat lon airport] =
          (pre ++ post).count [Op.seed country city, Op.incr country city, Op.coord lat lon airport] + 1 := by
        rw [count_step]
        simp
      have hcounter : (applyOp (Op.seed country city) db).counter =
          seedCounter country city db.counter := rfl
      have hkey' : countKey country city (applyOp (Op.seed country city) db).counter = 1 := by
        rw [hcounter, countKey_seedCounter]
        split
        · rfl
        · omega
      have hval' : keyValue country city (applyOp (Op.seed country city) db).counter =
          keyValue country city db.counter := by
        rw [hcounter, keyValue_seedCounter]
      have hforms' := forms_step pre post _ ([Op.incr country city, Op.coord lat lon airport]) hforms (Or.inr (Or.inr (Or.inl rfl)))
      have hres := ih (applyOp (Op.seed country city) db) hforms'
        (by omega)
        (by intro hz; omega)
      have hc2' : (pre ++ ([Op.incr country city, Op.coord lat lon airport]) :: post).count [Op.incr country city, Op.coord lat lon airport] =
          (pre ++ post).count [Op.incr country city, Op.coord lat lon airport] + 1 := by
        rw [count_step]
        simp
      have hc3' : (pre ++ ([Op.incr country city, Op.coord lat lon airport]) :: post).count [Op.seed country city, Op.incr country city, Op.coord lat lon airport] =
          (pre ++ post).count [Op.seed country city, Op.incr country city, Op.coord lat lon airport] := by
        rw [count_step]
        simp
      have hc2o : (pre ++ ([Op.seed country city, Op.incr country city, Op.coord lat lon airport]) :: post).count [Op.incr country city, Op.coord lat lon airport] =
          (pre ++ post).count [Op.incr country city, Op.coord lat lon airport] := by
        rw [count_step]
        simp
      rw [hkey', hval', hc2', hc3'] at hres
      simp only [applyOps]
      constructor
      · have hcond : ¬(countKey country city db.counter = 0 ∧
            (pre ++ ([Op.seed country city, Op.incr country city, Op.coord lat lon airport]) :: post).count [Op.seed country city, Op.incr country city, Op.coord lat lon airport] = 0) := by
          rintro ⟨_, h0⟩
          omega
        rw [hres.1, if_neg (by rintro ⟨h0, _⟩; omega), if_neg hcond]
      · rw [hres.2, hcnt3, hc2o]
        push_cast
        ring

/-! ## The HTTP route handlers of `main` -/

/-- An HTTP response: status code and body. -/
structure HttpResponse where
  status : Nat
  body : String
deriving DecidableEq, Repr

/-- The primary "/" handler (src/lib.rs lines 177-191) as a function of the
outcome of `open_connection` and of `serve`: a failed connection is a 500
with the message; a successful `serve` is a 200 HTML page; a failed `serve`
goes through `Response::ok("Error: {e}")`, i.e. a 200 whose body carries
the error text. -/
def rootRoute (conn : Except String Unit) (serveResult : Except String String) :
    HttpResponse :=
  match conn with
  | .error e => ⟨500, e⟩
  | .ok _ =>
    match serveResult with
    | .ok html => ⟨200, html⟩
    | .error e => ⟨200, "Error: " ++ e⟩

/-- Query-parameter lookup: `url.query_pairs()` collected into a `HashMap`,
so of duplicate keys the later pair wins. -/
def lookupParam (key : String) (query : List (String × String)) : Option String :=
  query.reverse.lookup key

/-- The "/add-user" handler (src/lib.rs lines 223-248) as a function of the
query pairs, the current user table, and the outcomes of the connection and
of the insert statement. It returns the response together with the user
table after the request. The email check runs first: without an `email`
parameter the handler answers 400 "No email" before any database work. -/
def addUserRoute (query : List (String × String)) (users : List String)
    (conn : Except String Unit) (execResult : Except String Unit) :
    HttpResponse × List String :=
  match lookupParam "email" query with
  | none => (⟨400, "No email"⟩, users)
  | some email =>
    match conn with
    | .error e => (⟨500, e⟩, users)
    | .ok _ =>
      match execResult with
      | .ok _ => (⟨200, "\x7b\"result\":\"Added\"\x7d"⟩, users ++ [email])
      | .error e => (⟨500, e⟩, users)

/-! ## Fault propagation through the renderers -/

/-- A stream entry the renderers consume without aborting: a row with at
least `colNum` cells whose first three cells are text, real and real. -/
def wellShaped (colNum : Nat) (entry : Except String Row) : Prop :=
  ∃ row, entry = Except.ok row ∧ colNum ≤ row.length ∧
    (∃ s, rowGetText row 0 = some s) ∧
    (∃ f, rowGetReal row 1 = some f) ∧
    (∃ g, rowGetReal row 2 = some g)

theorem jsonRows_fault (colNum : Nat) (e : String) :
    ∀ (pre post : List (Except String Row)),
    (∀ x ∈ pre, wellShaped colNum x) →
    jsonRows colNum (pre ++ Except.error e :: post) = RResult.err e := by
  intro pre
  induction pre with
  | nil => intro post _; rfl
  | cons x pre ih =>
    intro post hpre
    obtain ⟨row, rfl, hlen, -, -, -⟩ := hpre x (by simp)
    rw [List.cons_append]
    simp only [jsonRows, rowToJsonCells, if_pos hlen,
      ih post (fun y hy => hpre y (by simp [hy]))]

theorem htmlRowsBody_fault (colNum : Nat) (e : String) :
    ∀ (pre post : List (Except String Row)),
    (∀ x ∈ pre, wellShaped colNum x) →
    htmlRowsBody colNum (pre ++ Except.error e :: post) = RResult.panicked e := by
  intro pre
  induction pre with
  | nil => intro post _; rfl
  | cons x pre ih =>
    intro post hpre
    obtain ⟨row, rfl, hlen, -, -, -⟩ := hpre x (by simp)
    rw [List.cons_append]
    simp only [htmlRowsBody, htmlCells, if_pos hlen,
      ih post (fun y hy => hpre y (by simp [hy]))]

theorem mapMarkers_fault (e : String) :
    ∀ (pre post : List (Except String Row)) (colNum : Nat),
    (∀ x ∈ pre, wellShaped colNum x) →
    mapMarkers (pre ++ Except.error e :: post) = RResult.panicked e := by
  intro pre
  induction pre with
  | nil => intro post _ _; rfl
  | cons x pre ih =>
    intro post colNum hpre
    obtain ⟨row, rfl, -, ⟨s, hs⟩, ⟨f, hf⟩, ⟨g, hg⟩⟩ := hpre x (by simp)
    rw [List.cons_append]
    simp only [mapMarkers, hs, hf, hg,
      ih post colNum (fun y hy => hpre y (by simp [hy]))]

/-! ## The claims -/

/-- C1: for every (country, city) key, if N visit recordings for that key
run concurrently — each executing its seed, its atomic UPDATE increment and
its coordinate insert in order, with the statements of different requests
interleaved arbitrarily — then from any state with at most one row for the
key, the final counter table has exactly one row for that key and its value
(sum over the key, i.e. the row value, or 0 when absent) is exactly N
greater than before. The increment is the single atomic UPDATE statement
(`Op.incr`) applied by the store, not a client-side read-then-write. -/
theorem c1_no_lost_updates (country city : String) (lat lon : F32)
    (airport : String) (n : Nat) (hn : 1 ≤ n) (db : Db)
    (hdb : countKey country city db.counter ≤ 1)
    (out : List Op)
    (hI : Interleaving (List.replicate n (visitOps country city lat lon airport)) out) :
    countKey country city (applyOps out db).counter = 1 ∧
    keyValue country city (applyOps out db).counter =
      keyValue country city db.counter + (n : Int) := by
  have hforms : ∀ s ∈ List.replicate n (visitOps country city lat lon airport),
      s = [] ∨ s = [Op.coord lat lon airport] ∨
      s = [Op.incr country city, Op.coord lat lon airport] ∨
      s = [Op.seed country city, Op.incr country city, Op.coord lat lon airport] := by
    intro s hs
    have hv := List.eq_of_mem_replicate hs
    subst hv
    exact Or.inr (Or.inr (Or.inr rfl))
  have hSIC : (List.replicate n (visitOps country city lat lon airport)).count
      [Op.incr country city, Op.coord lat lon airport] = 0 := by
    rw [List.count_eq_zero]
    intro hmem
    have := List.eq_of_mem_replicate hmem
    simp [visitOps] at this
  have hSSIC : (List.replicate n (visitOps country city lat lon airport)).count
      [Op.seed country city, Op.incr country city, Op.coord lat lon airport] = n := by
    exact List.count_replicate_self _ n
  have hres := interleaving_counter_invariant country city lat lon airport _ out hI db
    hforms hdb (fun _ => hSIC)
  rw [hSIC, hSSIC] at hres
  constructor
  · rw [hres.1, if_neg (by rintro ⟨-, h0⟩; omega)]
  · rw [hres.2]
    push_cast
    ring

/-- Witness for C1: two concurrent visits for ("PL", "Warsaw") whose
statements interleave as seed, seed, increment, increment, coordinate
insert, coordinate insert; from empty tables the counter ends with exactly
one row for the key, of value 2. -/
theorem c1_no_lost_updates_witness :
    countKey "PL" "Warsaw" (applyOps
      [Op.seed "PL" "Warsaw", Op.seed "PL" "Warsaw",
       Op.incr "PL" "Warsaw", Op.incr "PL" "Warsaw",
       Op.coord ⟨"52.1672"⟩ ⟨"20.9679"⟩ "waw", Op.coord ⟨"52.1672"⟩ ⟨"20.9679"⟩ "waw"]
      ⟨[], []⟩).counter = 1 ∧
    keyValue "PL" "Warsaw" (applyOps
      [Op.seed "PL" "Warsaw", Op.seed "PL" "Warsaw",
       Op.incr "PL" "Warsaw", Op.incr "PL" "Warsaw",
       Op.coord ⟨"52.1672"⟩ ⟨"20.9679"⟩ "waw", Op.coord ⟨"52.1672"⟩ ⟨"20.9679"⟩ "waw"]
      ⟨[], []⟩).counter =
      keyValue "PL" "Warsaw" (Db.mk [] []).counter + ((2 : Nat) : Int) := by
  have hI : Interleaving
      (List.replicate 2 (visitOps "PL" "Warsaw" ⟨"52.1672"⟩ ⟨"20.9679"⟩ "waw"))
      [Op.seed "PL" "Warsaw", Op.seed "PL" "Warsaw",
       Op.incr "PL" "Warsaw", Op.incr "PL" "Warsaw",
       Op.coord ⟨"52.1672"⟩ ⟨"20.9679"⟩ "waw", Op.coord ⟨"52.1672"⟩ ⟨"20.9679"⟩ "waw"] := by
    show Interleaving
      [[Op.seed "PL" "Warsaw", Op.incr "PL" "Warsaw", Op.coord ⟨"52.1672"⟩ ⟨"20.9679"⟩ "waw"],
       [Op.seed "PL" "Warsaw", Op.incr "PL" "Warsaw", Op.coord ⟨"52.1672"⟩ ⟨"20.9679"⟩ "waw"]] _
    refine Interleaving.step [] [_] _ _ _ ?_
    refine Interleaving.step [[Op.incr "PL" "Warsaw", Op.coord ⟨"52.1672"⟩ ⟨"20.9679"⟩ "waw"]]
      [] _ _ _ ?_
    refine Interleaving.step [] [_] _ _ _ ?_
    refine Interleaving.step [[Op.coord ⟨"52.1672"⟩ ⟨"20.9679"⟩ "waw"]] [] _ _ _ ?_
    refine Interleaving.step [] [_] _ _ _ ?_
    refine Interleaving.step [[]] [] _ _ _ ?_
    exact Interleaving.nil [[], []] (by intro s hs; simpa using hs)
  exact c1_no_lost_updates "PL" "Warsaw" ⟨"52.1672"⟩ ⟨"20.9679"⟩ "waw" 2 (by omega)
    ⟨[], []⟩ (by decide) _ hI

/-- C2: seeding the same (country, city) key twice is idempotent — the
second seed changes nothing, one counter row for the key remains, and the
value is unaffected; and for coordinates, a second insert for the same
exact (lat, long) pair is a no-op leaving exactly one row, while the
at-most-one-row-per-key invariant is preserved for every key. (Both
operations are total functions of the table: no error is produced.) -/
theorem c2_idempotent_inserts (country city : String) (lat lon : F32)
    (a a' : String) (t : List CounterRow) (u : List CoordRow)
    (hc : countKey country city t ≤ 1) (hu : countCoord lat lon u ≤ 1) :
    seedCounter country city (seedCounter country city t) =
      seedCounter country city t ∧
    countKey country city (seedCounter country city (seedCounter country city t)) = 1 ∧
    keyValue country city (seedCounter country city (seedCounter country city t)) =
      keyValue country city (seedCounter country city t) ∧
    seedCoord lat lon a' (seedCoord lat lon a u) = seedCoord lat lon a u ∧
    countCoord lat lon (seedCoord lat lon a' (seedCoord lat lon a u)) = 1 ∧
    (∀ p q : F32, countCoord p q u ≤ 1 →
      countCoord p q (seedCoord lat lon a u) ≤ 1) := by
  refine ⟨seedCounter_seedCounter country city t, ?_, ?_,
    seedCoord_second_noop lat lon a a' u, ?_, ?_⟩
  · rw [seedCounter_seedCounter, countKey_seedCounter]
    split
    · rfl
    · omega
  · rw [seedCounter_seedCounter]
  · rw [seedCoord_second_noop, countCoord_seedCoord]
    split
    · rfl
    · omega
  · intro p q h
    exact countCoord_seedCoord_other p q lat lon a u h

/-- Witness for C2 at concrete inputs: empty tables, key ("PL", "Warsaw"),
coordinate (52.1672, 20.9679) seeded with labels "waw" then "waw2". -/
theorem c2_idempotent_inserts_witness :
    seedCounter "PL" "Warsaw" (seedCounter "PL" "Warsaw" []) =
      seedCounter "PL" "Warsaw" [] ∧
    countKey "PL" "Warsaw" (seedCounter "PL" "Warsaw" (seedCounter "PL" "Warsaw" [])) = 1 ∧
    keyValue "PL" "Warsaw" (seedCounter "PL" "Warsaw" (seedCounter "PL" "Warsaw" [])) =
      keyValue "PL" "Warsaw" (seedCounter "PL" "Warsaw" []) ∧
    seedCoord ⟨"52.1672"⟩ ⟨"20.9679"⟩ "waw2"
        (seedCoord ⟨"52.1672"⟩ ⟨"20.9679"⟩ "waw" []) =
      seedCoord ⟨"52.1672"⟩ ⟨"20.9679"⟩ "waw" [] ∧
    countCoord ⟨"52.1672"⟩ ⟨"20.9679"⟩
      (seedCoord ⟨"52.1672"⟩ ⟨"20.9679"⟩ "waw2"
        (seedCoord ⟨"52.1672"⟩ ⟨"20.9679"⟩ "waw" [])) = 1 ∧
    (∀ p q : F32, countCoord p q [] ≤ 1 →
      countCoord p q (seedCoord ⟨"52.1672"⟩ ⟨"20.9679"⟩ "waw" []) ≤ 1) :=
  c2_idempotent_inserts "PL" "Warsaw" ⟨"52.1672"⟩ ⟨"20.9679"⟩ "waw" "waw2" [] []
    (by decide) (by decide)

/-- C3: from empty tables, three visits ("waw","PL","Warsaw",
(52.1672,20.9679)) and two visits ("hel","FI","Helsinki",(60.3183,24.9497)),
run sequentially and all succeeding, leave exactly the counter rows
(PL, Warsaw, 3) and (FI, Helsinki, 2) and exactly the two coordinate rows
(52.1672, 20.9679, "waw") and (60.3183, 24.9497, "hel"). -/
theorem c3_scenario :
    scenarioFinal.counter = [("PL", "Warsaw", 3), ("FI", "Helsinki", 2)] ∧
    scenarioFinal.coords =
      [(⟨"52.1672"⟩, ⟨"20.9679"⟩, "waw"), (⟨"60.3183"⟩, ⟨"24.9497"⟩, "hel")] ∧
    scenarioFinal.coords.length = 2 := by
  refine ⟨by decide, by decide, by decide⟩

/-- C4: the display-string function maps Null to "", Integer and Real to
their canonical decimal text, Text to itself, and Binary to its un-padded
standard base64 encoding (every output character is in the standard
alphabet, which contains no padding character); and the JSON encoding maps
Null to JSON null, Integer and Real to JSON numbers, Text to a JSON string,
and Binary to a JSON object with the single key "base64" holding the
un-padded base64 encoding. -/
theorem c4_cell_renderings (i : Int) (f : F64) (s : String) (bs : List Nat)
    (hbs : allBytes bs) :
    stringify Value.Null = "" ∧
    stringify (Value.Integer i) = intToString i ∧
    stringify (Value.Real f) = f.repr ∧
    stringify (Value.Text s) = s ∧
    stringify (Value.Blob bs) = base64NoPad bs ∧
    isStdB64NoPad (base64NoPad bs) = true ∧
    cellToJson Value.Null = Json.null ∧
    cellToJson (Value.Integer i) = Json.intNum i ∧
    cellToJson (Value.Real f) = Json.realNum f ∧
    cellToJson (Value.Text s) = Json.str s ∧
    cellToJson (Value.Blob bs) = Json.obj [("base64", Json.str (base64NoPad bs))] :=
  ⟨rfl, rfl, rfl, rfl, rfl, isStdB64NoPad_base64NoPad bs hbs, rfl, rfl, rfl, rfl, rfl⟩

/-- Witness for C4 at concrete inputs: integer -42, real "3.5", text "hi",
blob [77, 97, 110] (the bytes of "Man", base64 "TWFu"). -/
theorem c4_cell_renderings_witness :
    stringify Value.Null = "" ∧
    stringify (Value.Integer (-42)) = intToString (-42) ∧
    stringify (Value.Real ⟨"3.5"⟩) = F64.repr ⟨"3.5"⟩ ∧
    stringify (Value.Text "hi") = "hi" ∧
    stringify (Value.Blob [77, 97, 110]) = base64NoPad [77, 97, 110] ∧
    isStdB64NoPad (base64NoPad [77, 97, 110]) = true ∧
    cellToJson Value.Null = Json.null ∧
    cellToJson (Value.Integer (-42)) = Json.intNum (-42) ∧
    cellToJson (Value.Real ⟨"3.5"⟩) = Json.realNum ⟨"3.5"⟩ ∧
    cellToJson (Value.Text "hi") = Json.str "hi" ∧
    cellToJson (Value.Blob [77, 97, 110]) =
      Json.obj [("base64", Json.str (base64NoPad [77, 97, 110]))] :=
  c4_cell_renderings (-42) ⟨"3.5"⟩ "hi" [77, 97, 110] (by decide)

/-- C5: the encodings are lossless. Decoding the display string of an
Integer, Real or Text cell reproduces the value exactly, and base64-decoding
the display string or the "base64" field of a Binary cell reproduces the
original bytes exactly; on the JSON side, decoding the cell encoding
reproduces every cell. -/
theorem c5_round_trips (i : Int) (f : F64) (s : String) (bs : List Nat)
    (hbs : allBytes bs) :
    parseInt (stringify (Value.Integer i)) = some i ∧
    F64.mk (stringify (Value.Real f)) = f ∧
    stringify (Value.Text s) = s ∧
    base64Decode (stringify (Value.Blob bs)) = some bs ∧
    jsonDecodeCell (cellToJson (Value.Integer i)) = some (Value.Integer i) ∧
    jsonDecodeCell (cellToJson (Value.Real f)) = some (Value.Real f) ∧
    jsonDecodeCell (cellToJson (Value.Text s)) = some (Value.Text s) ∧
    jsonDecodeCell (cellToJson (Value.Blob bs)) = some (Value.Blob bs) :=
  ⟨parseInt_intToString i, rfl, rfl, base64Decode_base64NoPad bs hbs, rfl, rfl, rfl,
    jsonDecodeCell_cellToJson (Value.Blob bs) (fun _ h => by cases h; exact hbs)⟩

/-- Witness for C5 at concrete inputs: integer -120, real "52.1672", text
"waw", blob [77, 97]. -/
theorem c5_round_trips_witness :
    parseInt (stringify (Value.Integer (-120))) = some (-120) ∧
    F64.mk (stringify (Value.Real ⟨"52.1672"⟩)) = (⟨"52.1672"⟩ : F64) ∧
    stringify (Value.Text "waw") = "waw" ∧
    base64Decode (stringify (Value.Blob [77, 97])) = some [77, 97] ∧
    jsonDecodeCell (cellToJson (Value.Integer (-120))) = some (Value.Integer (-120)) ∧
    jsonDecodeCell (cellToJson (Value.Real ⟨"52.1672"⟩)) =
      some (Value.Real ⟨"52.1672"⟩) ∧
    jsonDecodeCell (cellToJson (Value.Text "waw")) = some (Value.Text "waw") ∧
    jsonDecodeCell (cellToJson (Value.Blob [77, 97])) = some (Value.Blob [77, 97]) :=
  c5_round_trips (-120) ⟨"52.1672"⟩ "waw" [77, 97] (by decide)

/-- A result set whose row stream faults on the very first read. -/
def faultyRows : Rows :=
  ⟨[some "country", some "city", some "value"], [Except.error "io failure"]⟩

/-- Counterexample for C6 as stated: on a faulting stream, the HTML-table
and map-canvas renderers do not return the fault to the caller as an error
value — their outcome is a panic (the source unwraps `next()`), and
`isErrValue` is false; only `into_json` yields an error value. -/
theorem c6_counterexample_panic_not_error_value :
    result_to_html_table faultyRows = RResult.panicked "io failure" ∧
    (result_to_html_table faultyRows).isErrValue = false ∧
    create_map_canvas faultyRows = RResult.panicked "io failure" ∧
    (create_map_canvas faultyRows).isErrValue = false ∧
    into_json faultyRows = RResult.err "io failure" :=
  ⟨rfl, rfl, rfl, rfl, rfl⟩

/-- C6 (amended): for every result set whose row stream signals a read
fault mid-iteration (after any number of well-formed rows), every renderer
aborts — none returns a successful partial rendering. The JSON renderer
returns the fault to its caller as an error value; the HTML-table and
map-canvas renderers abort by panicking with the fault. -/
theorem c6_fault_aborts_renderers (r : Rows) (e : String)
    (pre post : List (Except String Row))
    (hr : r.rows = pre ++ Except.error e :: post)
    (hpre : ∀ x ∈ pre, wellShaped r.cols.length x) :
    into_json r = RResult.err e ∧
    result_to_html_table r = RResult.panicked e ∧
    create_map_canvas r = RResult.panicked e := by
  refine ⟨?_, ?_, ?_⟩
  · unfold into_json
    rw [hr, jsonRows_fault r.cols.length e pre post hpre]
  · unfold result_to_html_table
    rw [hr, htmlRowsBody_fault r.cols.length e pre post hpre]
  · unfold create_map_canvas
    rw [hr, mapMarkers_fault e pre post r.cols.length hpre]

/-- Witness for C6 (amended): a three-column result set delivering one
well-formed row and then a read fault. -/
theorem c6_fault_aborts_renderers_witness :
    into_json ⟨[some "airport", some "lat", some "long"],
      [Except.ok [Value.Text "waw", Value.Real ⟨"52.1672"⟩, Value.Real ⟨"20.9679"⟩],
       Except.error "io failure"]⟩ = RResult.err "io failure" ∧
    result_to_html_table ⟨[some "airport", some "lat", some "long"],
      [Except.ok [Value.Text "waw", Value.Real ⟨"52.1672"⟩, Value.Real ⟨"20.9679"⟩],
       Except.error "io failure"]⟩ = RResult.panicked "io failure" ∧
    create_map_canvas ⟨[some "airport", some "lat", some "long"],
      [Except.ok [Value.Text "waw", Value.Real ⟨"52.1672"⟩, Value.Real ⟨"20.9679"⟩],
       Except.error "io failure"]⟩ = RResult.panicked "io failure" := by
  refine c6_fault_aborts_renderers _ "io failure"
    [Except.ok [Value.Text "waw", Value.Real ⟨"52.1672"⟩, Value.Real ⟨"20.9679"⟩]] []
    rfl ?_
  intro x hx
  simp only [List.mem_singleton] at hx
  subst hx
  exact ⟨[Value.Text "waw", Value.Real ⟨"52.1672"⟩, Value.Real ⟨"20.9679"⟩], rfl,
    by decide, ⟨"waw", rfl⟩, ⟨⟨"52.1672"⟩, rfl⟩, ⟨⟨"20.9679"⟩, rfl⟩⟩

/-- C7 (evaluating the code at the failing input): on the primary "/"
endpoint, when `serve` fails — e.g. a persistence statement fails with the
given message — the handler's response goes through `Response::ok` and has
status 200 with body "Error: {message}", not status 500. -/
theorem c7_root_failure_returns_200 :
    rootRoute (Except.ok ()) (Except.error "UPDATE counter failed") =
      ⟨200, "Error: UPDATE counter failed"⟩ ∧
    (rootRoute (Except.ok ()) (Except.error "UPDATE counter failed")).status ≠ 500 :=
  ⟨rfl, by decide⟩

/-- C8: for the empty result set — whatever its column list — the map
canvas renderer returns normally with the fixed preamble immediately
followed by the closing: the marker run of the row loop is empty, so the
script contains zero marker-placement statements. -/
theorem c8_empty_map_canvas (cols : List (Option String)) :
    create_map_canvas ⟨cols, []⟩ = RResult.ok (mapPreamble ++ "" ++ mapClosing) ∧
    mapMarkers ([] : List (Except String Row)) = RResult.ok "" ∧
    mapPreamble ++ "" ++ mapClosing = mapPreamble ++ mapClosing :=
  ⟨rfl, rfl, by simp⟩

/-- C9: a GET /add-user request without an `email` query parameter gets
response 400 "No email" and the user table is unchanged — no insert is
performed, whatever the connection and statement outcomes would be. -/
theorem c9_add_user_no_email (query : List (String × String)) (users : List String)
    (conn : Except String Unit) (execResult : Except String Unit)
    (h : lookupParam "email" query = none) :
    addUserRoute query users conn execResult = (⟨400, "No email"⟩, users) := by
  unfold addUserRoute
  rw [h]

/-- Witness for C9: a query string with only a `name` parameter. -/
theorem c9_add_user_no_email_witness :
    addUserRoute [("name", "bob")] ["a@b.c"] (Except.ok ()) (Except.ok ()) =
      (⟨400, "No email"⟩, ["a@b.c"]) :=
  c9_add_user_no_email [("name", "bob")] ["a@b.c"] (Except.ok ()) (Except.ok ())
    (by decide)

/-- C10: for every result set and every column position whose name is
absent, the JSON renderer's `columns` list holds JSON null at that
position, while the HTML renderer emits an empty header cell for the same
column — and JSON null differs from the JSON string rendering of any named
(even empty-named) column, so the two renderers represent an unnamed
column differently. -/
theorem c10_unnamed_column (r : Rows) (i : Nat) (h : r.cols[i]? = some none) :
    (columnsJson r.cols)[i]? = some Json.null ∧
    headerCell none = "<th style=\"border: 1px solid\"></th>" ∧
    Json.null ≠ Json.str "" := by
  refine ⟨?_, rfl, fun hcontra => Json.noConfusion hcontra⟩
  unfold columnsJson
  rw [List.getElem?_map, h]
  rfl

/-- Witness for C10: a one-column result set whose single column is
unnamed. -/
theorem c10_unnamed_column_witness :
    (columnsJson (Rows.mk [none] []).cols)[0]? = some Json.null ∧
    headerCell none = "<th style=\"border: 1px solid\"></th>" ∧
    Json.null ≠ Json.str "" :=
  c10_unnamed_column ⟨[none], []⟩ 0 rfl
